import Mathlib

/-!
# Restaurant sentiment analyzer: the `App` component of `frontend/src/App.js`

A shallow embedding of the component's state (the six `useState` cells), of the
two event handlers `handlePredict` and `handleClear`, and of the enabling
conditions the JSX puts on the controls, followed by the properties of the
submission life cycle.

The handlers are embedded as the ordered list of effects they perform (calls of
the state setters and of `axios.post`).  `handlePredict` is an `async` function
with one `await`: it is embedded as the part that runs up to the `await`
(`handlePredictStart`) and the part that runs when the awaited promise has
settled (`handlePredictResume`).
-/

namespace Restro

/-! ## JavaScript values -/

/-- The JavaScript values the component handles: the primitives and plain
objects (JSON data, error objects).  A number is carried as its IEEE-754
binary64 bit pattern; no arithmetic is performed on it by the handlers. -/
inductive JSVal where
  | undefined : JSVal
  | null : JSVal
  | bool (b : Bool) : JSVal
  | num (bits : Nat) : JSVal
  | str (s : String) : JSVal
  | obj (fields : List (String × JSVal)) : JSVal

/-- Truthiness of a number given by its binary64 bit pattern: every number is
truthy except `+0`, `-0` and `NaN`. -/
def numTruthy (bits : Nat) : Bool :=
  let mag := (bits % 2 ^ 64) % 2 ^ 63
  mag != 0 && decide (mag ≤ 0x7FF0000000000000)

/-- The `ToBoolean` conversion used by `if (...)`, `||` and `&&`. -/
def truthy : JSVal → Bool
  | JSVal.undefined => false
  | JSVal.null => false
  | JSVal.bool b => b
  | JSVal.num bits => numTruthy bits
  | JSVal.str s => s.data.length != 0
  | JSVal.obj _ => true

/-- The expression `a || b` on values already evaluated (the right operand of
every `||` in the source is a string literal, whose evaluation has no effect). -/
def jsOr (a b : JSVal) : JSVal := if truthy a then a else b

/-- The comparison `v === 'literal'` against a string literal. -/
def strictEqStr (v : JSVal) (lit : String) : Bool :=
  match v with
  | JSVal.str s => s == lit
  | _ => false

/-- The message of the `TypeError` raised by reading property `prop` of
`undefined` or `null` (the wording of V8). -/
def typeErrorMessage (base : JSVal) (prop : String) : String :=
  let b := match base with
    | JSVal.null => "null"
    | _ => "undefined"
  "Cannot read properties of " ++ b ++ " (reading '" ++ prop ++ "')"

/-- The `TypeError` object raised by reading property `prop` of `undefined` or
`null`: an error object carrying a `message` and no `response`. -/
def typeError (base : JSVal) (prop : String) : JSVal :=
  JSVal.obj [("message", JSVal.str (typeErrorMessage base prop))]

/-- The member expression `base.prop` for the property names the component
reads (`data`, `sentiment`, `confidence`, `probabilities`, `response`,
`message`): it throws a `TypeError` on `undefined` and `null`, looks the name up
in an object, and is `undefined` on the other primitives, none of which has a
property of one of these names. -/
def getProp (base : JSVal) (prop : String) : Except JSVal JSVal :=
  match base with
  | JSVal.undefined => Except.error (typeError base prop)
  | JSVal.null => Except.error (typeError base prop)
  | JSVal.obj fields => Except.ok ((fields.lookup prop).getD JSVal.undefined)
  | _ => Except.ok JSVal.undefined

/-! ## Strings -/

/-- The code points `String.prototype.trim` removes: ECMAScript `WhiteSpace`
and `LineTerminator`. -/
def isWhiteSpace (c : Char) : Bool :=
  let n := c.toNat
  n == 0x09 || n == 0x0A || n == 0x0B || n == 0x0C || n == 0x0D || n == 0x20 ||
  n == 0xA0 || n == 0x1680 || (decide (0x2000 ≤ n) && decide (n ≤ 0x200A)) ||
  n == 0x2028 || n == 0x2029 || n == 0x202F || n == 0x205F || n == 0x3000 ||
  n == 0xFEFF

/-- The method `String.prototype.trim`: leading and trailing white space removed. -/
def jsTrim (s : String) : String :=
  ⟨((s.data.dropWhile isWhiteSpace).reverse.dropWhile isWhiteSpace).reverse⟩

/-- The property `length` of a string: its number of UTF-16 code units. -/
def jsLength (s : String) : Nat :=
  (s.data.map (fun c => if c.toNat < 0x10000 then 1 else 2)).sum

/-! ## Component state and effects -/

/-- The six state cells of `App` (lines 6-11). -/
structure State where
  review : String
  sentiment : JSVal
  loading : Bool
  error : JSVal
  confidence : JSVal
  probabilities : JSVal

/-- The initial values passed to `useState`. -/
def State.init : State :=
  { review := "", sentiment := JSVal.null, loading := false, error := JSVal.null,
    confidence := JSVal.null, probabilities := JSVal.null }

/-- What a handler does to the world outside its local variables. -/
inductive Effect where
  | preventDefault : Effect
  | setReview (s : String) : Effect
  | setSentiment (v : JSVal) : Effect
  | setLoading (b : Bool) : Effect
  | setError (v : JSVal) : Effect
  | setConfidence (v : JSVal) : Effect
  | setProbabilities (v : JSVal) : Effect
  | post (url : String) (body : JSVal) : Effect

/-- A state setter replaces the value of its cell; the other effects leave the
component state alone. -/
def applyEffect (s : State) : Effect → State
  | Effect.preventDefault => s
  | Effect.setReview r => { s with review := r }
  | Effect.setSentiment v => { s with sentiment := v }
  | Effect.setLoading b => { s with loading := b }
  | Effect.setError v => { s with error := v }
  | Effect.setConfidence v => { s with confidence := v }
  | Effect.setProbabilities v => { s with probabilities := v }
  | Effect.post _ _ => s

/-- The state after a list of effects, performed in order. -/
def applyEffects (s : State) (es : List Effect) : State := es.foldl applyEffect s

/-- The network requests among a list of effects, as (url, body) pairs. -/
def requests : List Effect → List (String × JSVal)
  | [] => []
  | Effect.post url body :: es => (url, body) :: requests es
  | _ :: es => requests es

/-- The result of running a block of statements: the effects performed, and the
value thrown if the block completed abruptly. -/
structure Run where
  effects : List Effect
  thrown : Option JSVal

/-- The statement `setter(expr);`: the argument is evaluated first, and the
setter is called only if that did not throw. -/
def callSetter (setter : JSVal → Effect) (arg : Except JSVal JSVal) : Run :=
  match arg with
  | Except.ok v => { effects := [setter v], thrown := none }
  | Except.error e => { effects := [], thrown := some e }

/-- Sequencing of two blocks: the second runs only if the first completed
normally. -/
def Run.andThen (r k : Run) : Run :=
  match r.thrown with
  | some _ => r
  | none => { effects := r.effects ++ k.effects, thrown := k.thrown }

/-- The statement `try { body } catch (err) { handler } finally { fin }`. -/
def tryCatchFinally (body : Run) (handler : JSVal → Run) (fin : Run) : Run :=
  let caught : Run :=
    match body.thrown with
    | none => body
    | some err => { effects := body.effects ++ (handler err).effects,
                    thrown := (handler err).thrown }
  match fin.thrown with
  | none => { effects := caught.effects ++ fin.effects, thrown := caught.thrown }
  | some e => { effects := caught.effects ++ fin.effects, thrown := some e }

/-! ## The handlers -/

/-- Line 13. -/
def API_BASE_URL : String := "http://localhost:5000"

/-- How the promise returned by `axios.post` settles. -/
inductive Settled where
  | fulfilled (response : JSVal) : Settled
  | rejected (err : JSVal) : Settled

/-- Lines 16-32 of `handlePredict`, up to the `await`: the effects performed,
and whether the function is suspended at the `await` (`true`) or has returned
(`false`). -/
def handlePredictStart (review : String) : List Effect × Bool :=
  if jsLength (jsTrim review) = 0 then
    ([Effect.preventDefault, Effect.setError (JSVal.str "Please enter a review text")], false)
  else
    ([Effect.preventDefault,
      Effect.setLoading true,
      Effect.setError JSVal.null,
      Effect.setSentiment JSVal.null,
      Effect.setConfidence JSVal.null,
      Effect.setProbabilities JSVal.null,
      Effect.post (API_BASE_URL ++ "/predict") (JSVal.obj [("review", JSVal.str review)])],
     true)

/-- Lines 30-37: the `try` block from the point where the `await` resumes. -/
def tryBlock : Settled → Run
  | Settled.rejected err => { effects := [], thrown := some err }
  | Settled.fulfilled response =>
    match getProp response "data" with
    | Except.error e => { effects := [], thrown := some e }
    | Except.ok data =>
      (callSetter Effect.setSentiment (getProp data "sentiment")).andThen
        ((callSetter Effect.setConfidence (getProp data "confidence")).andThen
          (callSetter Effect.setProbabilities (getProp data "probabilities")))

/-- Lines 38-48: the `catch` block. -/
def catchBlock (err : JSVal) : Run :=
  match getProp err "response" with
  | Except.error e => { effects := [], thrown := some e }
  | Except.ok response =>
    if truthy response then
      callSetter Effect.setError
        (match getProp response "data" with
         | Except.error e => Except.error e
         | Except.ok data =>
           match getProp data "message" with
           | Except.error e => Except.error e
           | Except.ok message =>
             Except.ok (jsOr message (JSVal.str
               "Error connecting to backend. Make sure the Flask server is running on localhost:5000")))
    else
      match getProp err "message" with
      | Except.error e => { effects := [], thrown := some e }
      | Except.ok message =>
        if strictEqStr message "Network Error" then
          callSetter Effect.setError (Except.ok (JSVal.str
            "Network Error: Cannot connect to backend. Make sure Flask server is running on http://localhost:5000"))
        else
          callSetter Effect.setError (Except.ok (jsOr message (JSVal.str "An error occurred")))

/-- Lines 49-51: the `finally` block. -/
def finallyBlock : Run := { effects := [Effect.setLoading false], thrown := none }

/-- Lines 29-51 of `handlePredict`, from the point where the awaited promise has
settled to the end of the function.  `thrown` is the value the promise returned
by `handlePredict` is rejected with, if any. -/
def handlePredictResume (o : Settled) : Run :=
  tryCatchFinally (tryBlock o) catchBlock finallyBlock

/-- Lines 54-60. -/
def handleClear : List Effect :=
  [Effect.setReview "", Effect.setSentiment JSVal.null, Effect.setConfidence JSVal.null,
   Effect.setProbabilities JSVal.null, Effect.setError JSVal.null]

/-- One call of `handlePredict` run to completion with nothing else happening in
between: the state when the returned promise has settled. -/
def submit (s : State) (o : Settled) : State :=
  let start := handlePredictStart s.review
  if start.2 then
    applyEffects (applyEffects s start.1) (handlePredictResume o).effects
  else
    applyEffects s start.1

/-- All effects of one call of `handlePredict` run to completion, in order. -/
def submitEffects (review : String) (o : Settled) : List Effect :=
  let start := handlePredictStart review
  if start.2 then start.1 ++ (handlePredictResume o).effects else start.1

/-! ## The view -/

/-- The guard `error &&` of line 104: the error cell holds a truthy value.  This
is the condition on the cell only; the card's body (line 107) is not part of it. -/
def errorActive (s : State) : Bool := truthy s.error

/-- The guard `sentiment &&` of line 111: the sentiment cell holds a truthy
value.  This is the condition on the cell only; the card's body, which calls
`sentiment.toLowerCase()` (lines 112 and 116), is not part of it. -/
def resultActive (s : State) : Bool := truthy s.sentiment

/-- The guard `loading &&` of line 165. -/
def loadingActive (s : State) : Bool := s.loading

/-- None of the three guards holds. -/
def idle (s : State) : Bool := !loadingActive s && !errorActive s && !resultActive s

/-! ## The component driven by events -/

/-- The component state together with the requests in flight (url and body of
each `axios.post` whose promise has not settled yet). -/
structure Sys where
  st : State
  pending : List (String × JSVal)

/-- The state after mounting: initial cells, nothing in flight. -/
def Sys.init : Sys := { st := State.init, pending := [] }

/-- The events the component reacts to. -/
inductive Event where
  | change (text : String) : Event
  | submit : Event
  | clear : Event
  | settle (i : Nat) (o : Settled) : Event

/-- The reaction to one event: `change` is the `onChange` of line 77, `submit`
runs `handlePredict` up to its `await` and records the request it issued, `clear`
runs `handleClear`, and `settle i o` resumes the call of `handlePredict` that
waits for the `i`-th request in flight, on the state as it is then. -/
def step (sys : Sys) : Event → Sys
  | Event.change text => { sys with st := applyEffect sys.st (Effect.setReview text) }
  | Event.submit =>
    { st := applyEffects sys.st (handlePredictStart sys.st.review).1,
      pending := sys.pending ++ requests (handlePredictStart sys.st.review).1 }
  | Event.clear => { sys with st := applyEffects sys.st handleClear }
  | Event.settle i o =>
    if i < sys.pending.length then
      { st := applyEffects sys.st (handlePredictResume o).effects,
        pending := sys.pending.eraseIdx i }
    else sys

/-- The state after a sequence of events. -/
def run (sys : Sys) (es : List Event) : Sys := es.foldl step sys

/-- Which events the rendered page lets happen: the textarea (line 80), the
submit button (line 88) and the Clear button (line 96) are disabled while
`loading`; the button of lines 156-161 also runs `handleClear`, is never
disabled, and exists only inside the result card (guard of line 111); a
request can settle only while it is in flight. -/
def enabled (sys : Sys) : Event → Bool
  | Event.change _ => !sys.st.loading
  | Event.submit => !sys.st.loading
  | Event.clear => !sys.st.loading || truthy sys.st.sentiment
  | Event.settle i _ => decide (i < sys.pending.length)

/-- The states the page can be brought into: from the mounted component by
events that are enabled when they happen. -/
inductive Reachable : Sys → Prop where
  | init : Reachable Sys.init
  | step (sys : Sys) (e : Event) : Reachable sys → enabled sys e = true →
      Reachable (step sys e)

/-! ## Sample data -/

/-- A state showing a result, with white space typed into the textarea. -/
def blankOverResult : State :=
  { review := " \n\t ", sentiment := JSVal.str "Positive", loading := false,
    error := JSVal.null, confidence := JSVal.num 0x3FEBD70A3D70A3D7,
    probabilities := JSVal.obj [("positive", JSVal.num 0x3FEBD70A3D70A3D7),
                                ("negative", JSVal.num 0x3FC0A3D70A3D70A4)] }

/-- A state showing an error left by an earlier call, with a review typed in. -/
def typedOverError : State :=
  { review := "  Great food!  ", sentiment := JSVal.null, loading := false,
    error := JSVal.str "Please enter a review text", confidence := JSVal.null,
    probabilities := JSVal.null }

/-- The body `{sentiment: "Positive", confidence: 0.87, probabilities:
{positive: 0.87, negative: 0.13}}`. -/
def positiveBody : JSVal :=
  JSVal.obj [("sentiment", JSVal.str "Positive"),
             ("confidence", JSVal.num 0x3FEBD70A3D70A3D7),
             ("probabilities", JSVal.obj [("positive", JSVal.num 0x3FEBD70A3D70A3D7),
                                          ("negative", JSVal.num 0x3FC0A3D70A3D70A4)])]

/-- A response object with status 200 and the given body. -/
def okResponse (body : JSVal) : JSVal :=
  JSVal.obj [("status", JSVal.num 0x4069000000000000), ("data", body)]

/-- The error `axios` rejects with when the backend answers with status 500 and
the given body. -/
def backendError (body : JSVal) : JSVal :=
  JSVal.obj [("message", JSVal.str "Request failed with status code 500"),
             ("response", JSVal.obj [("status", JSVal.num 0x407F400000000000),
                                     ("data", body)])]

/-- The error `axios` rejects with when no response was received. -/
def networkError : JSVal :=
  JSVal.obj [("message", JSVal.str "Network Error")]

/-- What holds of every state the page can be brought into: while `loading` is
true exactly one request is in flight, it carries the input as it still stands,
and the error and the result cells are `null`; while `loading` is false nothing
is in flight; and an error is set together with a result only if it is the
error of the input check. -/
def Inv (sys : Sys) : Prop :=
  (sys.st.loading = true →
    sys.pending =
      [(API_BASE_URL ++ "/predict", JSVal.obj [("review", JSVal.str sys.st.review)])] ∧
    jsLength (jsTrim sys.st.review) ≠ 0 ∧
    sys.st.error = JSVal.null ∧ sys.st.sentiment = JSVal.null ∧
    sys.st.confidence = JSVal.null ∧ sys.st.probabilities = JSVal.null) ∧
  (sys.st.loading = false → sys.pending = []) ∧
  (errorActive sys.st = true → resultActive sys.st = true →
    sys.st.error = JSVal.str "Please enter a review text")

/-- A review is submitted and answered with a positive result, then white space
is typed and submitted. -/
def blankAfterResult : List Event :=
  [Event.change "Great food!", Event.submit,
   Event.settle 0 (Settled.fulfilled (okResponse positiveBody)),
   Event.change "   ", Event.submit]

/-- A review is submitted, `handleClear` is called while the request is in
flight, and then the request is answered with a positive result. -/
def clearWhilePending : List Event :=
  [Event.change "Great food!", Event.submit, Event.clear,
   Event.settle 0 (Settled.fulfilled (okResponse positiveBody))]

/-- A review is submitted and its request is in flight. -/
def requestInFlight : List Event :=
  [Event.change "Great food!", Event.submit]

/-- A review is submitted and answered with a positive result, then white space
is typed into the textarea. -/
def blankTypedOverResult : List Event :=
  [Event.change "Great food!", Event.submit,
   Event.settle 0 (Settled.fulfilled (okResponse positiveBody)),
   Event.change "   "]

/-- Every event of the list is enabled at the moment it happens. -/
def allEnabled : Sys → List Event → Bool
  | _, [] => true
  | sys, e :: es => enabled sys e && allEnabled (step sys e) es

/-! ## Auxiliary facts -/

theorem jsLength_eq_zero_iff (s : String) : jsLength s = 0 ↔ s.data = [] := by
  unfold jsLength
  constructor
  · intro h
    cases hd : s.data with
    | nil => rfl
    | cons c cs =>
      rw [hd] at h
      simp only [List.map_cons, List.sum_cons] at h
      split at h <;> omega
  · intro h
    rw [h]
    rfl

theorem dropWhile_eq_nil_of_all (p : Char → Bool) (l : List Char)
    (h : l.all p = true) : l.dropWhile p = [] := by
  rw [List.dropWhile_eq_nil_iff]
  intro x hx
  exact (List.all_eq_true.mp h) x hx

/-- An input that is empty or white space only has a trimmed length of 0. -/
theorem jsTrim_blank (s : String) (h : s.data.all isWhiteSpace = true) :
    jsLength (jsTrim s) = 0 := by
  rw [jsLength_eq_zero_iff]
  simp [jsTrim, dropWhile_eq_nil_of_all isWhiteSpace s.data h]

theorem all_of_dropWhile_eq_nil (p : Char → Bool) (l : List Char)
    (h : l.dropWhile p = []) : l.all p = true := by
  rw [List.dropWhile_eq_nil_iff] at h
  exact List.all_eq_true.mpr h

/-- The check of line 18 is exact: a trimmed length of 0 means the input is empty
or white space only. -/
theorem blank_of_jsTrim (s : String) (h : jsLength (jsTrim s) = 0) :
    s.data.all isWhiteSpace = true := by
  rw [jsLength_eq_zero_iff] at h
  simp only [jsTrim, List.reverse_eq_nil_iff] at h
  have h1 := all_of_dropWhile_eq_nil _ _ h
  rw [List.all_reverse] at h1
  cases hd : s.data.dropWhile isWhiteSpace with
  | nil => exact all_of_dropWhile_eq_nil _ _ hd
  | cons c cs =>
    have hc : isWhiteSpace c = false := by
      have := List.head_dropWhile_not isWhiteSpace s.data (by rw [hd]; simp)
      simpa [hd] using this
    rw [hd] at h1
    simp [hc] at h1

/-- Reading a property of a value other than `undefined` and `null` does not
throw. -/
theorem getProp_ok (base : JSVal) (prop : String)
    (h1 : base ≠ JSVal.undefined) (h2 : base ≠ JSVal.null) :
    ∃ v, getProp base prop = Except.ok v := by
  cases base <;> simp [getProp] at *

/-- A successful property read shows that the base is neither `undefined` nor
`null`, so every other property read of it succeeds as well. -/
theorem getProp_ok_of_ok (base : JSVal) (p q : String) (v : JSVal)
    (h : getProp base p = Except.ok v) : ∃ w, getProp base q = Except.ok w := by
  cases base <;> simp [getProp] at *

/-- The `try` block either performs the three result setters and completes, or
throws before the first of them. -/
theorem tryBlock_shape (o : Settled) :
    (∃ a b c, tryBlock o = { effects := [Effect.setSentiment a, Effect.setConfidence b,
        Effect.setProbabilities c], thrown := none }) ∨
    (∃ e, tryBlock o = { effects := [], thrown := some e }) := by
  cases o with
  | rejected err => exact Or.inr ⟨err, rfl⟩
  | fulfilled response =>
    simp only [tryBlock]
    cases getProp response "data" with
    | error e => exact Or.inr ⟨e, rfl⟩
    | ok data => cases data <;> simp [getProp, callSetter, Run.andThen]

/-- The `catch` block either sets the error and completes, or throws before
setting anything. -/
theorem catchBlock_shape (err : JSVal) :
    (∃ e, catchBlock err = { effects := [Effect.setError e], thrown := none }) ∨
    (∃ t, catchBlock err = { effects := [], thrown := some t }) := by
  unfold catchBlock
  cases getProp err "response" with
  | error e => exact Or.inr ⟨e, rfl⟩
  | ok response =>
    simp only
    split
    · cases getProp response "data" with
      | error e => exact Or.inr ⟨e, rfl⟩
      | ok data =>
        simp only
        cases getProp data "message" with
        | error e => exact Or.inr ⟨e, rfl⟩
        | ok message => exact Or.inl ⟨_, rfl⟩
    · cases getProp err "message" with
      | error e => exact Or.inr ⟨e, rfl⟩
      | ok message =>
        simp only
        split
        · exact Or.inl ⟨_, rfl⟩
        · exact Or.inl ⟨_, rfl⟩

/-- The shape of what `handlePredict` does once its request has settled: it sets
the three result cells, or sets the error, or (when the `catch` block itself
throws) neither, and in each case it clears `loading` last. -/
theorem handlePredictResume_shape (o : Settled) :
    (∃ a b c, (handlePredictResume o).effects =
        [Effect.setSentiment a, Effect.setConfidence b, Effect.setProbabilities c,
         Effect.setLoading false] ∧ (handlePredictResume o).thrown = none) ∨
    (∃ e, (handlePredictResume o).effects = [Effect.setError e, Effect.setLoading false] ∧
        (handlePredictResume o).thrown = none) ∨
    (∃ t, (handlePredictResume o).effects = [Effect.setLoading false] ∧
        (handlePredictResume o).thrown = some t) := by
  unfold handlePredictResume
  rcases tryBlock_shape o with ⟨a, b, c, h⟩ | ⟨e, h⟩
  · exact Or.inl ⟨a, b, c, by simp [tryCatchFinally, h, finallyBlock]⟩
  · rcases catchBlock_shape e with ⟨m, hc⟩ | ⟨t, hc⟩
    · exact Or.inr (Or.inl ⟨m, by simp [tryCatchFinally, h, hc, finallyBlock]⟩)
    · exact Or.inr (Or.inr ⟨t, by simp [tryCatchFinally, h, hc, finallyBlock]⟩)

/-- Resuming `handlePredict` issues no request. -/
theorem requests_handlePredictResume (o : Settled) :
    requests (handlePredictResume o).effects = [] := by
  rcases handlePredictResume_shape o with ⟨a, b, c, h, _⟩ | ⟨e, h, _⟩ | ⟨t, h, _⟩ <;>
    rw [h] <;> rfl

/-- Resuming `handlePredict` leaves `loading` false, whatever the state it
resumes on. -/
theorem loading_handlePredictResume (o : Settled) (s : State) :
    (applyEffects s (handlePredictResume o).effects).loading = false := by
  rcases handlePredictResume_shape o with ⟨a, b, c, h, _⟩ | ⟨e, h, _⟩ | ⟨t, h, _⟩ <;>
    rw [h] <;> rfl

/-- What `handlePredict` does up to the `await` on an input that passes the
check of line 18. -/
theorem handlePredictStart_valid (review : String) (h : jsLength (jsTrim review) ≠ 0) :
    handlePredictStart review =
      ([Effect.preventDefault, Effect.setLoading true, Effect.setError JSVal.null,
        Effect.setSentiment JSVal.null, Effect.setConfidence JSVal.null,
        Effect.setProbabilities JSVal.null,
        Effect.post (API_BASE_URL ++ "/predict") (JSVal.obj [("review", JSVal.str review)])],
       true) := by
  simp [handlePredictStart, h]

/-- What `handlePredict` does on an input that fails the check of line 18. -/
theorem handlePredictStart_blank (review : String) (h : jsLength (jsTrim review) = 0) :
    handlePredictStart review =
      ([Effect.preventDefault, Effect.setError (JSVal.str "Please enter a review text")],
       false) := by
  simp [handlePredictStart, h]

/-! ## Validation -/

/-- Claim C1: from every state whose input is empty or consists of white space
only, the trimmed input has length 0 and `handlePredict` returns at line 20
without reaching the `await`: it issues no request, and the state it leaves is
the prior state with the error set to exactly "Please enter a review text". -/
theorem handlePredict_blank_input (s : State) (o : Settled)
    (h : s.review.data.all isWhiteSpace = true) :
    jsLength (jsTrim s.review) = 0 ∧
    (handlePredictStart s.review).2 = false ∧
    requests (submitEffects s.review o) = [] ∧
    submit s o = { s with error := JSVal.str "Please enter a review text" } := by
  have h0 := jsTrim_blank s.review h
  have hs := handlePredictStart_blank s.review h0
  refine ⟨h0, ?_, ?_, ?_⟩
  · rw [hs]
  · simp [submitEffects, hs, requests]
  · simp [submit, hs, applyEffects, applyEffect]

theorem handlePredict_blank_input_witness :
    blankOverResult.review.data.all isWhiteSpace = true ∧
    (jsLength (jsTrim blankOverResult.review) = 0 ∧
     (handlePredictStart blankOverResult.review).2 = false ∧
     requests (submitEffects blankOverResult.review (Settled.rejected networkError)) = [] ∧
     submit blankOverResult (Settled.rejected networkError) =
       { blankOverResult with error := JSVal.str "Please enter a review text" }) :=
  ⟨by decide, handlePredict_blank_input blankOverResult (Settled.rejected networkError)
    (by decide)⟩

/-! ## A request that succeeds -/

/-- Claim C2, as amended: for every input that is non-empty after trimming and
every fulfilled request whose response body `d` is neither `null` nor
`undefined`, from every prior state, when `handlePredict` has finished the cells
`sentiment`, `confidence` and `probabilities` hold `d.sentiment`, `d.confidence`
and `d.probabilities` unchanged (`undefined` for a property `d` lacks), the error
is `null`, `loading` is false, the input is untouched and `handlePredict` has
not thrown. -/
theorem handlePredict_success (s : State) (response d : JSVal)
    (hvalid : jsLength (jsTrim s.review) ≠ 0)
    (hdata : getProp response "data" = Except.ok d)
    (hundef : d ≠ JSVal.undefined) (hnull : d ≠ JSVal.null) :
    ∃ sent conf probs,
      getProp d "sentiment" = Except.ok sent ∧
      getProp d "confidence" = Except.ok conf ∧
      getProp d "probabilities" = Except.ok probs ∧
      submit s (Settled.fulfilled response) =
        { review := s.review, sentiment := sent, loading := false, error := JSVal.null,
          confidence := conf, probabilities := probs } ∧
      (handlePredictResume (Settled.fulfilled response)).thrown = none := by
  obtain ⟨sent, h1⟩ := getProp_ok d "sentiment" hundef hnull
  obtain ⟨conf, h2⟩ := getProp_ok d "confidence" hundef hnull
  obtain ⟨probs, h3⟩ := getProp_ok d "probabilities" hundef hnull
  have hsub : submit s (Settled.fulfilled response) =
      { review := s.review, sentiment := sent, loading := false, error := JSVal.null,
        confidence := conf, probabilities := probs } := by
    simp [submit, handlePredictStart_valid s.review hvalid, handlePredictResume,
      tryCatchFinally, tryBlock, hdata, h1, h2, h3, callSetter, Run.andThen, finallyBlock,
      applyEffects, applyEffect]
  refine ⟨sent, conf, probs, h1, h2, h3, hsub, ?_⟩
  simp [handlePredictResume, tryCatchFinally, tryBlock, hdata, h1, h2, h3, callSetter,
    Run.andThen, finallyBlock]

theorem handlePredict_success_witness :
    (jsLength (jsTrim typedOverError.review) ≠ 0 ∧
     getProp (okResponse positiveBody) "data" = Except.ok positiveBody ∧
     positiveBody ≠ JSVal.undefined ∧ positiveBody ≠ JSVal.null) ∧
    ∃ sent conf probs,
      getProp positiveBody "sentiment" = Except.ok sent ∧
      getProp positiveBody "confidence" = Except.ok conf ∧
      getProp positiveBody "probabilities" = Except.ok probs ∧
      submit typedOverError (Settled.fulfilled (okResponse positiveBody)) =
        { review := typedOverError.review, sentiment := sent, loading := false,
          error := JSVal.null, confidence := conf, probabilities := probs } ∧
      (handlePredictResume (Settled.fulfilled (okResponse positiveBody))).thrown = none :=
  ⟨⟨by decide, rfl, fun h => JSVal.noConfusion h, fun h => JSVal.noConfusion h⟩,
   handlePredict_success typedOverError (okResponse positiveBody) positiveBody (by decide) rfl
     (fun h => JSVal.noConfusion h) (fun h => JSVal.noConfusion h)⟩

/-- Claim C2 fails as stated: a request fulfilled with the body `null` on a valid
input does not end in a result. Reading `data.sentiment` throws inside the `try`
block, the `catch` block takes the `TypeError` for a failure of the request, and
the call ends with an error set and no sentiment. -/
theorem handlePredict_success_null_body :
    jsLength (jsTrim typedOverError.review) ≠ 0 ∧
    getProp (okResponse JSVal.null) "data" = Except.ok JSVal.null ∧
    (submit typedOverError (Settled.fulfilled (okResponse JSVal.null))).error =
      JSVal.str "Cannot read properties of null (reading 'sentiment')" ∧
    (submit typedOverError (Settled.fulfilled (okResponse JSVal.null))).sentiment =
      JSVal.null :=
  ⟨by decide, rfl, rfl, rfl⟩

/-! ## A request that fails -/

/-- Claim C3, as amended: for every valid submit whose request is rejected with
a response attached whose body is neither `null` nor `undefined` (so that
`body.message` can be read): if `body.message` is truthy, the error is exactly
that value; if it is absent (`undefined`) or otherwise falsy, such as the empty
string, the error is exactly "Error connecting to backend. Make sure the Flask
server is running on localhost:5000". The result cells are `null` and `loading`
is false. -/
theorem handlePredict_backend_error (s : State) (err response body message : JSVal)
    (hvalid : jsLength (jsTrim s.review) ≠ 0)
    (hresp : getProp err "response" = Except.ok response)
    (hattached : truthy response = true)
    (hbody : getProp response "data" = Except.ok body)
    (hmsg : getProp body "message" = Except.ok message) :
    submit s (Settled.rejected err) =
      { review := s.review, sentiment := JSVal.null, loading := false,
        error := if truthy message then message else JSVal.str
          "Error connecting to backend. Make sure the Flask server is running on localhost:5000",
        confidence := JSVal.null, probabilities := JSVal.null } ∧
    (handlePredictResume (Settled.rejected err)).thrown = none := by
  constructor
  · simp [submit, handlePredictStart_valid s.review hvalid, handlePredictResume,
      tryCatchFinally, tryBlock, catchBlock, hresp, hattached, hbody, hmsg, callSetter,
      finallyBlock, applyEffects, applyEffect, jsOr]
  · simp [handlePredictResume, tryCatchFinally, tryBlock, catchBlock, hresp, hattached,
      hbody, hmsg, callSetter, finallyBlock]

theorem handlePredict_backend_error_witness :
    (jsLength (jsTrim typedOverError.review) ≠ 0 ∧
     getProp (backendError (JSVal.obj [("message", JSVal.str "model unavailable")]))
       "response" = Except.ok (JSVal.obj [("status", JSVal.num 0x407F400000000000),
          ("data", JSVal.obj [("message", JSVal.str "model unavailable")])]) ∧
     truthy (JSVal.obj [("status", JSVal.num 0x407F400000000000),
          ("data", JSVal.obj [("message", JSVal.str "model unavailable")])]) = true ∧
     getProp (JSVal.obj [("status", JSVal.num 0x407F400000000000),
          ("data", JSVal.obj [("message", JSVal.str "model unavailable")])]) "data" =
        Except.ok (JSVal.obj [("message", JSVal.str "model unavailable")]) ∧
     getProp (JSVal.obj [("message", JSVal.str "model unavailable")]) "message" =
        Except.ok (JSVal.str "model unavailable")) ∧
    (submit typedOverError (Settled.rejected
        (backendError (JSVal.obj [("message", JSVal.str "model unavailable")]))) =
      { review := typedOverError.review, sentiment := JSVal.null, loading := false,
        error := if truthy (JSVal.str "model unavailable") then JSVal.str "model unavailable"
          else JSVal.str
          "Error connecting to backend. Make sure the Flask server is running on localhost:5000",
        confidence := JSVal.null, probabilities := JSVal.null } ∧
     (handlePredictResume (Settled.rejected
        (backendError (JSVal.obj [("message", JSVal.str "model unavailable")])))).thrown =
       none) :=
  ⟨⟨by decide, rfl, rfl, rfl, rfl⟩,
   handlePredict_backend_error typedOverError
     (backendError (JSVal.obj [("message", JSVal.str "model unavailable")]))
     (JSVal.obj [("status", JSVal.num 0x407F400000000000),
          ("data", JSVal.obj [("message", JSVal.str "model unavailable")])])
     (JSVal.obj [("message", JSVal.str "model unavailable")])
     (JSVal.str "model unavailable") (by decide) rfl rfl rfl rfl⟩

/-- Claim C3 fails as stated: the response body `{message: ""}` has a message
field, yet the error is not that message but the fallback text, since `||` takes
its right operand for every falsy left operand. -/
theorem handlePredict_backend_error_empty_message :
    jsLength (jsTrim typedOverError.review) ≠ 0 ∧
    getProp (JSVal.obj [("message", JSVal.str "")]) "message" = Except.ok (JSVal.str "") ∧
    (submit typedOverError (Settled.rejected
        (backendError (JSVal.obj [("message", JSVal.str "")])))).error =
      JSVal.str
        "Error connecting to backend. Make sure the Flask server is running on localhost:5000" :=
  ⟨by decide, rfl, rfl⟩

/-- Claim C4: for every valid submit whose request is rejected with an error
`err` that carries no response (`err.response` is falsy): if `err.message` is
the string "Network Error" the error shown is the connectivity text; otherwise
it is `err.message` when that is truthy and "An error occurred" when it is not.
The response is looked at first: when `err.response` is truthy, `handlePredict`
does exactly what it does for an error that has this response and no message at
all, so `err.message` plays no part. -/
theorem handlePredict_no_response (s : State) (err response : JSVal)
    (hvalid : jsLength (jsTrim s.review) ≠ 0)
    (hresp : getProp err "response" = Except.ok response) :
    (truthy response = false →
      ∃ message, getProp err "message" = Except.ok message ∧
        (strictEqStr message "Network Error" = true ↔ message = JSVal.str "Network Error") ∧
        (handlePredictResume (Settled.rejected err)).thrown = none ∧
        submit s (Settled.rejected err) =
          { review := s.review, sentiment := JSVal.null, loading := false,
            error :=
              if strictEqStr message "Network Error" then JSVal.str
                "Network Error: Cannot connect to backend. Make sure Flask server is running on http://localhost:5000"
              else if truthy message then message
              else JSVal.str "An error occurred",
            confidence := JSVal.null, probabilities := JSVal.null }) ∧
    (truthy response = true →
      handlePredictResume (Settled.rejected err) =
        handlePredictResume (Settled.rejected (JSVal.obj [("response", response)]))) := by
  constructor
  · intro hno
    obtain ⟨message, hm⟩ := getProp_ok_of_ok err "response" "message" response hresp
    refine ⟨message, hm, ?_, ?_, ?_⟩
    · cases message <;> simp [strictEqStr]
    · by_cases hne : strictEqStr message "Network Error" = true <;>
        simp [handlePredictResume, tryCatchFinally, tryBlock, catchBlock, hresp, hno, hm,
          hne, callSetter, finallyBlock]
    · by_cases hne : strictEqStr message "Network Error" = true <;>
        simp [submit, handlePredictStart_valid s.review hvalid, handlePredictResume,
          tryCatchFinally, tryBlock, catchBlock, hresp, hno, hm, hne, callSetter,
          finallyBlock, applyEffects, applyEffect, jsOr]
  · intro hyes
    have h2 : getProp (JSVal.obj [("response", response)]) "response" = Except.ok response := by
      simp [getProp, List.lookup]
    simp [handlePredictResume, tryCatchFinally, tryBlock, catchBlock, hresp, h2, hyes]

theorem handlePredict_no_response_witness :
    (jsLength (jsTrim typedOverError.review) ≠ 0 ∧
     getProp networkError "response" = Except.ok JSVal.undefined) ∧
    ((truthy JSVal.undefined = false →
      ∃ message, getProp networkError "message" = Except.ok message ∧
        (strictEqStr message "Network Error" = true ↔ message = JSVal.str "Network Error") ∧
        (handlePredictResume (Settled.rejected networkError)).thrown = none ∧
        submit typedOverError (Settled.rejected networkError) =
          { review := typedOverError.review, sentiment := JSVal.null, loading := false,
            error :=
              if strictEqStr message "Network Error" then JSVal.str
                "Network Error: Cannot connect to backend. Make sure Flask server is running on http://localhost:5000"
              else if truthy message then message
              else JSVal.str "An error occurred",
            confidence := JSVal.null, probabilities := JSVal.null }) ∧
     (truthy JSVal.undefined = true →
      handlePredictResume (Settled.rejected networkError) =
        handlePredictResume
          (Settled.rejected (JSVal.obj [("response", JSVal.undefined)])))) :=
  ⟨⟨by decide, rfl⟩,
   handlePredict_no_response typedOverError networkError JSVal.undefined (by decide) rfl⟩

/-- Claim C5 fails on the code: when the request is rejected with a response
whose body is `null`, reading `err.response.data.message` throws a `TypeError`
inside the `catch` block. The `finally` block still clears `loading`, but
`handlePredict` ends by throwing, no error is set, and the component is left
idle rather than showing an error. -/
theorem handlePredict_rejects_on_null_error_body :
    jsLength (jsTrim typedOverError.review) ≠ 0 ∧
    (handlePredictResume (Settled.rejected (backendError JSVal.null))).thrown =
      some (typeError JSVal.null "message") ∧
    (handlePredictResume (Settled.rejected (backendError JSVal.null))).effects =
      [Effect.setLoading false] ∧
    (submit typedOverError (Settled.rejected (backendError JSVal.null))).error = JSVal.null ∧
    errorActive (submit typedOverError (Settled.rejected (backendError JSVal.null))) = false ∧
    idle (submit typedOverError (Settled.rejected (backendError JSVal.null))) = true :=
  ⟨by decide, rfl, rfl, rfl, rfl, rfl⟩

/-! ## The loading flag -/

/-- Claim C6: for every input that is non-empty after trimming and every way the
request settles, `handlePredict` reaches the `await`; what it has done by then
is a list of effects followed by the request, the effects before the request
contain no request and leave `loading` true and the error and the three result
cells `null`; and when the call has finished `loading` is false, whatever the
state it resumed on and whether it returned or threw. -/
theorem handlePredict_loading_bracket (s : State) (o : Settled)
    (hvalid : jsLength (jsTrim s.review) ≠ 0) :
    ∃ before url body,
      handlePredictStart s.review = (before ++ [Effect.post url body], true) ∧
      requests before = [] ∧
      applyEffects s before =
        { review := s.review, sentiment := JSVal.null, loading := true,
          error := JSVal.null, confidence := JSVal.null, probabilities := JSVal.null } ∧
      (∀ s1 : State, (applyEffects s1 (handlePredictResume o).effects).loading = false) ∧
      (submit s o).loading = false := by
  refine ⟨[Effect.preventDefault, Effect.setLoading true, Effect.setError JSVal.null,
      Effect.setSentiment JSVal.null, Effect.setConfidence JSVal.null,
      Effect.setProbabilities JSVal.null], API_BASE_URL ++ "/predict",
      JSVal.obj [("review", JSVal.str s.review)], ?_, rfl, rfl, ?_, ?_⟩
  · rw [handlePredictStart_valid s.review hvalid]
    rfl
  · intro s1
    exact loading_handlePredictResume o s1
  · simp only [submit, handlePredictStart_valid s.review hvalid, if_true]
    exact loading_handlePredictResume o _

theorem handlePredict_loading_bracket_witness :
    jsLength (jsTrim typedOverError.review) ≠ 0 ∧
    ∃ before url body,
      handlePredictStart typedOverError.review = (before ++ [Effect.post url body], true) ∧
      requests before = [] ∧
      applyEffects typedOverError before =
        { review := typedOverError.review, sentiment := JSVal.null, loading := true,
          error := JSVal.null, confidence := JSVal.null, probabilities := JSVal.null } ∧
      (∀ s1 : State, (applyEffects s1
        (handlePredictResume (Settled.rejected (backendError JSVal.null))).effects).loading =
          false) ∧
      (submit typedOverError (Settled.rejected (backendError JSVal.null))).loading = false :=
  ⟨by decide, handlePredict_loading_bracket typedOverError
    (Settled.rejected (backendError JSVal.null)) (by decide)⟩

/-! ## The request -/

/-- Claim C9: for every input that is non-empty after trimming, and every way
the request settles, one call of `handlePredict` issues exactly one request: a
POST to "http://localhost:5000/predict" with body `{ review: r }`, where `r` is
the input as it is, not trimmed. -/
theorem handlePredict_single_request (s : State) (o : Settled)
    (hvalid : jsLength (jsTrim s.review) ≠ 0) :
    requests (submitEffects s.review o) =
      [("http://localhost:5000/predict", JSVal.obj [("review", JSVal.str s.review)])] := by
  have hr := requests_handlePredictResume o
  have hurl : API_BASE_URL ++ "/predict" = "http://localhost:5000/predict" := by decide
  simp [submitEffects, handlePredictStart_valid s.review hvalid, requests, hr, hurl]

theorem handlePredict_single_request_witness :
    jsLength (jsTrim typedOverError.review) ≠ 0 ∧
    requests (submitEffects typedOverError.review (Settled.fulfilled (okResponse positiveBody))) =
      [("http://localhost:5000/predict", JSVal.obj [("review", JSVal.str "  Great food!  ")])] :=
  ⟨by decide, handlePredict_single_request typedOverError
    (Settled.fulfilled (okResponse positiveBody)) (by decide)⟩

/-! ## Clearing -/

/-- Claim C7, as amended: from every state `handleClear` issues no request, sets
the input to the empty string and the error and the three result cells to
`null`, and leaves `loading` as it was. The state it leaves is therefore idle
exactly when `loading` was false before; called while `loading` is true it
leaves `loading` true. -/
theorem handleClear_resets (s : State) :
    requests handleClear = [] ∧
    applyEffects s handleClear =
      { review := "", sentiment := JSVal.null, loading := s.loading, error := JSVal.null,
        confidence := JSVal.null, probabilities := JSVal.null } ∧
    idle (applyEffects s handleClear) = !s.loading := by
  refine ⟨rfl, rfl, ?_⟩
  simp [idle, loadingActive, errorActive, resultActive, applyEffects, handleClear,
    applyEffect, truthy]

/-- Claim C7 fails as stated: `handleClear` called on the state `handlePredict`
leaves at its `await` (loading) leaves `loading` true, so the state is not idle. -/
theorem handleClear_keeps_loading :
    (applyEffects typedOverError (handlePredictStart typedOverError.review).1).loading = true ∧
    (applyEffects (applyEffects typedOverError (handlePredictStart typedOverError.review).1)
      handleClear).loading = true ∧
    idle (applyEffects (applyEffects typedOverError (handlePredictStart typedOverError.review).1)
      handleClear) = false :=
  ⟨rfl, rfl, rfl⟩

/-! ## Runs of the page -/

theorem inv_init : Inv Sys.init := by
  refine ⟨?_, ?_, ?_⟩
  · intro h
    cases h
  · intro _
    rfl
  · intro h
    cases h

theorem inv_step (sys : Sys) (e : Event) (hinv : Inv sys) (hen : enabled sys e = true) :
    Inv (step sys e) := by
  obtain ⟨h1, h2, h3⟩ := hinv
  cases e with
  | change text =>
    have hl : sys.st.loading = false := by simpa [enabled] using hen
    refine ⟨?_, ?_, ?_⟩
    · intro h
      simp [step, applyEffect, hl] at h
    · intro _
      simpa [step] using h2 hl
    · intro he hr
      exact h3 he hr
  | submit =>
    have hl : sys.st.loading = false := by simpa [enabled] using hen
    have hp := h2 hl
    by_cases hv : jsLength (jsTrim sys.st.review) = 0
    · have hs := handlePredictStart_blank sys.st.review hv
      refine ⟨?_, ?_, ?_⟩
      · intro h
        simp [step, hs, applyEffects, applyEffect, hl] at h
      · intro _
        simp [step, hs, hp, requests]
      · intro _ _
        simp [step, hs, applyEffects, applyEffect]
    · have hs := handlePredictStart_valid sys.st.review hv
      refine ⟨?_, ?_, ?_⟩
      · intro _
        refine ⟨?_, ?_, ?_⟩
        · simp [step, hs, hp, requests, applyEffects, applyEffect]
        · simpa [step, hs, applyEffects, applyEffect] using hv
        · simp [step, hs, applyEffects, applyEffect]
      · intro h
        simp [step, hs, applyEffects, applyEffect] at h
      · intro he
        simp [step, hs, applyEffects, applyEffect, errorActive, truthy] at he
  | clear =>
    have hl : sys.st.loading = false := by
      cases hload : sys.st.loading with
      | false => rfl
      | true =>
        have hs := (h1 hload).2.2.2.1
        simp [enabled, hload, hs, truthy] at hen
    refine ⟨?_, ?_, ?_⟩
    · intro h
      simp [step, handleClear, applyEffects, applyEffect, hl] at h
    · intro _
      simpa [step] using h2 hl
    · intro he
      simp [step, handleClear, applyEffects, applyEffect, errorActive, truthy] at he
  | settle i o =>
    have hi : i < sys.pending.length := by simpa [enabled] using hen
    have hl : sys.st.loading = true := by
      cases hload : sys.st.loading with
      | true => rfl
      | false =>
        rw [h2 hload] at hi
        simp at hi
    obtain ⟨hp, _, herr, hsent, _, _⟩ := h1 hl
    have hi0 : i = 0 := by
      rw [hp] at hi
      simpa using hi
    subst hi0
    have hlen : 0 < sys.pending.length := hi
    refine ⟨?_, ?_, ?_⟩
    · intro h
      have := loading_handlePredictResume o sys.st
      simp [step, hlen] at h
      rw [this] at h
      cases h
    · intro _
      simp [step, hlen, hp]
    · intro he hr
      exfalso
      simp only [step, hlen, if_true] at he hr
      rcases handlePredictResume_shape o with ⟨a, b, c, h, _⟩ | ⟨m, h, _⟩ | ⟨t, h, _⟩
      · rw [h] at he
        simp [applyEffects, applyEffect, errorActive, herr, truthy] at he
      · rw [h] at hr
        simp [applyEffects, applyEffect, resultActive, hsent, truthy] at hr
      · rw [h] at he
        simp [applyEffects, applyEffect, errorActive, herr, truthy] at he

theorem inv_of_reachable (sys : Sys) (h : Reachable sys) : Inv sys := by
  induction h with
  | init => exact inv_init
  | step sys e _ hen ih => exact inv_step sys e ih hen

theorem reachable_run (es : List Event) (sys : Sys) (h : Reachable sys)
    (hen : allEnabled sys es = true) : Reachable (run sys es) := by
  induction es generalizing sys with
  | nil => exact h
  | cons e es ih =>
    simp only [allEnabled, Bool.and_eq_true] at hen
    exact ih (step sys e) (Reachable.step sys e h hen.1) hen.2

/-- Claim C8, as amended: in every state the page can be brought into, a request
in flight excludes the other two cards (while `loading` is true neither the
error nor the result is set); the error and the result are set together only
with `loading` false and the error "Please enter a review text"; the state is
idle exactly when none of the three is active; and submitting an input of white
space only while a result is set is enabled and leaves the error and the
result both set. -/
theorem view_members_of_reachable (sys : Sys) (h : Reachable sys) :
    (loadingActive sys.st = true →
      errorActive sys.st = false ∧ resultActive sys.st = false) ∧
    (errorActive sys.st = true → resultActive sys.st = true →
      loadingActive sys.st = false ∧
      sys.st.error = JSVal.str "Please enter a review text") ∧
    (idle sys.st = true ↔
      loadingActive sys.st = false ∧ errorActive sys.st = false ∧
      resultActive sys.st = false) ∧
    (resultActive sys.st = true → sys.st.review.data.all isWhiteSpace = true →
      enabled sys Event.submit = true ∧
      errorActive (step sys Event.submit).st = true ∧
      resultActive (step sys Event.submit).st = true ∧
      loadingActive (step sys Event.submit).st = false) := by
  obtain ⟨h1, _, h3⟩ := inv_of_reachable sys h
  have hload : resultActive sys.st = true → sys.st.loading = false := by
    intro hr
    cases hl : sys.st.loading with
    | false => rfl
    | true =>
      have hs := (h1 hl).2.2.2.1
      simp [resultActive, hs, truthy] at hr
  refine ⟨?_, ?_, ?_, ?_⟩
  · intro hl
    obtain ⟨_, _, herr, hsent, _, _⟩ := h1 hl
    simp [errorActive, resultActive, herr, hsent, truthy]
  · intro he hr
    exact ⟨hload hr, h3 he hr⟩
  · simp [idle, and_assoc]
  · intro hr hblank
    have hl := hload hr
    have hs := handlePredictStart_blank sys.st.review (jsTrim_blank sys.st.review hblank)
    refine ⟨by simp [enabled, hl], ?_, ?_, ?_⟩
    · simp [step, hs, applyEffects, applyEffect, errorActive, truthy]
    · simpa [step, hs, applyEffects, applyEffect, resultActive] using hr
    · simpa [step, hs, applyEffects, applyEffect, loadingActive] using hl

theorem view_members_of_reachable_witness :
    Reachable (run Sys.init blankTypedOverResult) ∧
    ((loadingActive (run Sys.init blankTypedOverResult).st = true →
      errorActive (run Sys.init blankTypedOverResult).st = false ∧
      resultActive (run Sys.init blankTypedOverResult).st = false) ∧
    (errorActive (run Sys.init blankTypedOverResult).st = true →
      resultActive (run Sys.init blankTypedOverResult).st = true →
      loadingActive (run Sys.init blankTypedOverResult).st = false ∧
      (run Sys.init blankTypedOverResult).st.error =
        JSVal.str "Please enter a review text") ∧
    (idle (run Sys.init blankTypedOverResult).st = true ↔
      loadingActive (run Sys.init blankTypedOverResult).st = false ∧
      errorActive (run Sys.init blankTypedOverResult).st = false ∧
      resultActive (run Sys.init blankTypedOverResult).st = false) ∧
    (resultActive (run Sys.init blankTypedOverResult).st = true →
      (run Sys.init blankTypedOverResult).st.review.data.all isWhiteSpace = true →
      enabled (run Sys.init blankTypedOverResult) Event.submit = true ∧
      errorActive (step (run Sys.init blankTypedOverResult) Event.submit).st = true ∧
      resultActive (step (run Sys.init blankTypedOverResult) Event.submit).st = true ∧
      loadingActive (step (run Sys.init blankTypedOverResult) Event.submit).st = false)) :=
  ⟨reachable_run blankTypedOverResult Sys.init Reachable.init rfl,
   view_members_of_reachable (run Sys.init blankTypedOverResult)
     (reachable_run blankTypedOverResult Sys.init Reachable.init rfl)⟩

/-- Claim C8 fails as stated: after a review has been answered with a positive
result, typing white space and submitting (every event enabled when it happens)
leaves the error card and the result card both shown. -/
theorem error_and_result_shown_together :
    allEnabled Sys.init blankAfterResult = true ∧
    errorActive (run Sys.init blankAfterResult).st = true ∧
    resultActive (run Sys.init blankAfterResult).st = true ∧
    (run Sys.init blankAfterResult).st.error = JSVal.str "Please enter a review text" ∧
    (run Sys.init blankAfterResult).st.sentiment = JSVal.str "Positive" :=
  ⟨rfl, rfl, rfl, rfl, rfl⟩

/-- Claim C10, as amended: the handlers do not discard a late completion, the
page keeps it from arising. In every state the page can be brought into at most
one request is in flight, one is in flight exactly while `loading` is true, and
while one is in flight clearing, submitting and typing are all disabled, the
request in flight carries the input as it still stands, and the state is the
one `handlePredict` left at its `await`; so the only event that can happen is
that this request settles, which leaves nothing in flight and `loading` false. -/
theorem no_overlap_of_reachable (sys : Sys) (h : Reachable sys) :
    sys.pending.length ≤ 1 ∧
    (sys.pending ≠ [] ↔ sys.st.loading = true) ∧
    (sys.pending ≠ [] →
      enabled sys Event.clear = false ∧
      enabled sys Event.submit = false ∧
      (∀ text, enabled sys (Event.change text) = false) ∧
      sys.pending =
        [("http://localhost:5000/predict", JSVal.obj [("review", JSVal.str sys.st.review)])] ∧
      sys.st =
        { review := sys.st.review, sentiment := JSVal.null, loading := true,
          error := JSVal.null, confidence := JSVal.null, probabilities := JSVal.null } ∧
      (∀ i o, enabled sys (Event.settle i o) = true →
        i = 0 ∧ (step sys (Event.settle i o)).pending = [] ∧
        (step sys (Event.settle i o)).st.loading = false)) := by
  obtain ⟨h1, h2, _⟩ := inv_of_reachable sys h
  have hurl : API_BASE_URL ++ "/predict" = "http://localhost:5000/predict" := by decide
  have hiff : sys.pending ≠ [] ↔ sys.st.loading = true := by
    constructor
    · intro hp
      cases hl : sys.st.loading with
      | true => rfl
      | false => exact absurd (h2 hl) hp
    · intro hl
      rw [(h1 hl).1]
      simp
  refine ⟨?_, hiff, ?_⟩
  · cases hl : sys.st.loading with
    | true => simp [(h1 hl).1]
    | false => simp [h2 hl]
  · intro hp
    have hl := hiff.mp hp
    obtain ⟨hpend, _, herr, hsent, hconf, hprob⟩ := h1 hl
    refine ⟨?_, ?_, ?_, ?_, ?_, ?_⟩
    · simp [enabled, hl, hsent, truthy]
    · simp [enabled, hl]
    · intro text
      simp [enabled, hl]
    · rw [hpend, hurl]
    · cases hst : sys.st with
      | mk review sentiment loading error confidence probabilities =>
        simp only [hst] at hl herr hsent hconf hprob
        simp [hl, herr, hsent, hconf, hprob]
    · intro i o hen
      have hi : i < sys.pending.length := by simpa [enabled] using hen
      have hi0 : i = 0 := by
        rw [hpend] at hi
        simpa using hi
      subst hi0
      have hlen : 0 < sys.pending.length := hi
      refine ⟨rfl, ?_, ?_⟩
      · simp [step, hlen, hpend]
      · simp only [step, hlen, if_true]
        exact loading_handlePredictResume o sys.st

theorem no_overlap_of_reachable_witness :
    Reachable (run Sys.init requestInFlight) ∧
    ((run Sys.init requestInFlight).pending.length ≤ 1 ∧
    ((run Sys.init requestInFlight).pending ≠ [] ↔
      (run Sys.init requestInFlight).st.loading = true) ∧
    ((run Sys.init requestInFlight).pending ≠ [] →
      enabled (run Sys.init requestInFlight) Event.clear = false ∧
      enabled (run Sys.init requestInFlight) Event.submit = false ∧
      (∀ text, enabled (run Sys.init requestInFlight) (Event.change text) = false) ∧
      (run Sys.init requestInFlight).pending =
        [("http://localhost:5000/predict",
          JSVal.obj [("review", JSVal.str (run Sys.init requestInFlight).st.review)])] ∧
      (run Sys.init requestInFlight).st =
        { review := (run Sys.init requestInFlight).st.review, sentiment := JSVal.null,
          loading := true, error := JSVal.null, confidence := JSVal.null,
          probabilities := JSVal.null } ∧
      (∀ i o, enabled (run Sys.init requestInFlight) (Event.settle i o) = true →
        i = 0 ∧ (step (run Sys.init requestInFlight) (Event.settle i o)).pending = [] ∧
        (step (run Sys.init requestInFlight) (Event.settle i o)).st.loading = false))) :=
  ⟨reachable_run requestInFlight Sys.init Reachable.init rfl,
   no_overlap_of_reachable (run Sys.init requestInFlight)
     (reachable_run requestInFlight Sys.init Reachable.init rfl)⟩

/-- Claim C10 fails as stated on the handlers: when `handleClear` is called while
a request is in flight and the request is then answered, `handlePredict` resumes
on the cleared state and fills in the result, so the component shows a result
and is not idle. -/
theorem late_response_applied_after_clear :
    (run Sys.init requestInFlight).pending.length = 1 ∧
    (run Sys.init (requestInFlight ++ [Event.clear])).pending.length = 1 ∧
    run Sys.init clearWhilePending =
      run (run Sys.init (requestInFlight ++ [Event.clear]))
        [Event.settle 0 (Settled.fulfilled (okResponse positiveBody))] ∧
    (run Sys.init clearWhilePending).st.sentiment = JSVal.str "Positive" ∧
    resultActive (run Sys.init clearWhilePending).st = true ∧
    idle (run Sys.init clearWhilePending).st = false :=
  ⟨rfl, rfl, rfl, rfl, rfl, rfl⟩

end Restro
